import Mathlib

/-!
Verification of the variation-assignment and delivery subsystem of
`smart-variation-router` (a TypeScript / Next.js A/B-testing service).

The TypeScript sources are shallowly embedded:
* JavaScript 32-bit integer coercions (`ToInt32` / `ToUint32`, the `^` and
  `>>> 0` operators) are modelled explicitly on `Int` / `Nat`;
* strings fed to the hash are modelled as lists of UTF-16 code units
  (the values produced by JavaScript's `String.prototype.charCodeAt`);
* the SQLite store is modelled as in-memory lists of rows, and each HTTP
  route handler as a pure function from its inputs (query parameters,
  headers, store contents, and the nondeterministically generated event id
  and timestamp) to a response value and an updated store.
-/

namespace SmartVariationRouter

/-! ## JavaScript 32-bit arithmetic -/

/-- JavaScript `ToUint32` on an integral value: reduce into `[0, 2^32)`. -/
def toUint32 (i : Int) : Nat := (i % (4294967296 : Int)).toNat

/-- JavaScript `ToInt32` on an integral value: the 32-bit pattern of
`toUint32 i` read as a two's-complement signed integer. -/
def toInt32 (i : Int) : Int :=
  if toUint32 i < 2147483648 then (toUint32 i : Int)
  else (toUint32 i : Int) - 4294967296

/-- JavaScript `a ^ b`: XOR of the 32-bit patterns of `ToInt32 a` and
`ToInt32 b`, the result read back as a signed 32-bit integer. -/
def jsXor (a b : Int) : Int :=
  toInt32 ((((toUint32 a) ^^^ (toUint32 b) : Nat) : Int))

/-! ## `src/lib/variation.ts` -/

/-- One iteration of the loop body of `hashString`:
`hash = (hash * 33) ^ str.charCodeAt(i)`.  The multiplication is exact in
JavaScript's float arithmetic (`|hash| < 2^31`, so `|hash * 33| < 2^53`),
and `^` coerces to 32 bits. -/
def hashStep (h : Int) (c : Nat) : Int := jsXor (h * 33) (c : Int)

/-- Function `hashString` from `src/lib/variation.ts`: djb2-variant hash of a string
(given as its list of UTF-16 code units), starting from 5381 and finishing
with `>>> 0` (ToUint32). -/
def hashString (codes : List Nat) : Nat :=
  toUint32 (codes.foldl hashStep 5381)

/-- Spec-side definition (from the spec's words, for comparison with
`hashString`): "initialize accumulator to 5381; for each character,
accumulator = (accumulator × 33) bitwise-XOR character code", with each
step reduced mod 2^32 by exact 32-bit unsigned wraparound arithmetic. -/
def djb2Spec (codes : List Nat) : Nat :=
  codes.foldl (fun a c => ((a * 33) ^^^ c) % 4294967296) 5381

/-! ## Supporting lemmas for the 32-bit arithmetic -/

theorem toUint32_lt (i : Int) : toUint32 i < 4294967296 := by
  unfold toUint32; omega

theorem xor_emod_two_pow (a b n : Nat) :
    (a ^^^ b) % 2 ^ n = (a % 2 ^ n) ^^^ (b % 2 ^ n) := by
  apply Nat.eq_of_testBit_eq
  intro i
  simp only [Nat.testBit_mod_two_pow, Nat.testBit_xor]
  by_cases h : i < n <;> simp [h]

theorem toUint32_toInt32_ofNat (x : Nat) (hx : x < 4294967296) :
    toUint32 (toInt32 ((x : Nat) : Int)) = x := by
  simp only [toInt32, toUint32]
  split <;> omega

theorem toUint32_mul33 (h : Int) :
    toUint32 (h * 33) = (toUint32 h * 33) % 4294967296 := by
  unfold toUint32; omega

theorem toUint32_ofNat (c : Nat) (hc : c < 4294967296) :
    toUint32 ((c : Nat) : Int) = c := by
  unfold toUint32; omega

theorem toUint32_hashStep (h : Int) (c : Nat) (hc : c < 4294967296) :
    toUint32 (hashStep h c) = ((toUint32 h * 33) ^^^ c) % 4294967296 := by
  have hm : (4294967296 : Nat) = 2 ^ 32 := by norm_num
  have h1 : toUint32 (h * 33) = (toUint32 h * 33) % 4294967296 := toUint32_mul33 h
  have h2 : toUint32 ((c : Nat) : Int) = c := toUint32_ofNat c hc
  have hxlt : (toUint32 (h * 33)) ^^^ (toUint32 ((c : Int))) < 4294967296 := by
    rw [hm]
    exact Nat.xor_lt_two_pow (hm ▸ toUint32_lt (h * 33)) (hm ▸ toUint32_lt (Int.ofNat c))
  have := toUint32_toInt32_ofNat _ hxlt
  have hc2 : c < 2 ^ 32 := by omega
  unfold hashStep jsXor
  rw [this, h1, h2, hm, xor_emod_two_pow, Nat.mod_eq_of_lt hc2]

theorem hash_foldl (codes : List Nat) (hb : ∀ c ∈ codes, c < 4294967296) :
    ∀ h : Int, toUint32 (codes.foldl hashStep h) =
      codes.foldl (fun a c => ((a * 33) ^^^ c) % 4294967296) (toUint32 h) := by
  induction codes with
  | nil => intro h; rfl
  | cons c cs ih =>
    intro h
    have hc : c < 4294967296 := hb c (List.mem_cons_self _ _)
    have hb' : ∀ x ∈ cs, x < 4294967296 := fun x hx => hb x (List.mem_cons_of_mem _ hx)
    simp only [List.foldl_cons]
    rw [ih hb' (hashStep h c), toUint32_hashStep h c hc]

theorem toUint32_small (n : Nat) (h : n < 4294967296) : toUint32 ((n : Nat) : Int) = n := by
  unfold toUint32; omega

/-! ## Variations and `assignVariation` -/

/-- The `Variation` type from `src/lib/types.ts`: `"A" | "B" | "C" | "D"`. -/
inductive Variation where
  | A | B | C | D
deriving DecidableEq, Repr

/-- The ordered list `["A", "B", "C", "D"]` built in `assignVariation`. -/
def variationList : List Variation := [.A, .B, .C, .D]

/-- UTF-16 code unit of the separator `":"` used in
`const combined = `${visitorId}:${projectId}`". -/
def colonCode : Nat := 58

/-- Function `assignVariation` from `src/lib/variation.ts`: hash
`visitorId ++ ":" ++ projectId` and index `["A","B","C","D"]` at
`hash % 4`.  JavaScript array indexing yields `undefined` out of bounds,
so the embedding returns an `Option` and indexes with `List.get?`. -/
def assignVariation (visitorId projectId : List Nat) : Option Variation :=
  variationList.get? (hashString (visitorId ++ colonCode :: projectId) % 4)

/-- Spec-side bucket-to-symbol map (from the claim's words: bucket index
0→A, 1→B, 2→C, 3→D applied to `hash mod 4`). -/
def specBucketSymbol (hash : Nat) : Variation :=
  match hash % 4 with
  | 0 => .A
  | 1 => .B
  | 2 => .C
  | _ => .D

/-- Function `isValidVariation` from `src/lib/variation.ts`:
`["A", "B", "C", "D"].includes(value)` on the raw string. -/
def isValidVariation (value : String) : Bool :=
  (["A", "B", "C", "D"] : List String).contains value

/-- C1: `hashString` equals the djb2 variant with exact 32-bit unsigned
wraparound arithmetic — accumulator starts at 5381, each step is
`((acc * 33) XOR code) mod 2^32`, the final value is the unsigned 32-bit
accumulator — and the empty string hashes to 5381. -/
theorem hashString_eq_djb2Spec (codes : List Nat)
    (hc : ∀ c ∈ codes, c < 65536) :
    hashString codes = djb2Spec codes ∧ hashString [] = 5381 := by
  constructor
  · have hb : ∀ c ∈ codes, c < 4294967296 := fun c h => by
      have := hc c h; omega
    unfold hashString djb2Spec
    rw [hash_foldl codes hb 5381]
    have h5381 : toUint32 5381 = 5381 := by unfold toUint32; omega
    rw [h5381]
  · rfl

theorem hashString_eq_djb2Spec_witness :
    hashString [104, 105] = djb2Spec [104, 105] ∧ hashString [] = 5381 :=
  hashString_eq_djb2Spec [104, 105] (by decide)

/-- Shared helper: `assignVariation` computes the spec's bucket map. -/
theorem assignVariation_eq (visitorId projectId : List Nat) :
    assignVariation visitorId projectId =
      some (specBucketSymbol (hashString (visitorId ++ colonCode :: projectId))) := by
  unfold assignVariation specBucketSymbol
  have h4 : hashString (visitorId ++ colonCode :: projectId) % 4 < 4 :=
    Nat.mod_lt _ (by norm_num)
  revert h4
  generalize hashString (visitorId ++ colonCode :: projectId) % 4 = n
  intro h4
  have hcases : n = 0 ∨ n = 1 ∨ n = 2 ∨ n = 3 := by omega
  rcases hcases with rfl | rfl | rfl | rfl <;> rfl

/-- C2: `assignVariation` returns exactly the symbol at index
`hashString(visitorId ++ ":" ++ projectId) mod 4` of the ordered list
`[A, B, C, D]` (0→A, 1→B, 2→C, 3→D), and it is deterministic. -/
theorem assignVariation_bucket (visitorId projectId : List Nat) :
    assignVariation visitorId projectId =
      some (specBucketSymbol (hashString (visitorId ++ colonCode :: projectId)))
    ∧ assignVariation visitorId projectId = assignVariation visitorId projectId :=
  ⟨assignVariation_eq visitorId projectId, rfl⟩

/-- C9: `assignVariation` is total and always yields one of the four
symbols: the hash is an unsigned 32-bit value, `hash % 4 < 4`, and the
list indexing never falls out of bounds. -/
theorem assignVariation_total (visitorId projectId : List Nat) :
    (∃ x, assignVariation visitorId projectId = some x
        ∧ (x = .A ∨ x = .B ∨ x = .C ∨ x = .D))
    ∧ hashString (visitorId ++ colonCode :: projectId) < 4294967296
    ∧ hashString (visitorId ++ colonCode :: projectId) % 4 < 4 := by
  refine ⟨?_, toUint32_lt _, Nat.mod_lt _ (by norm_num)⟩
  refine ⟨specBucketSymbol (hashString (visitorId ++ colonCode :: projectId)), ?_, ?_⟩
  · exact assignVariation_eq visitorId projectId
  · cases h : specBucketSymbol (hashString (visitorId ++ colonCode :: projectId)) <;> simp

/-! ## `src/lib/script-generator.ts` -/

/- The embed-script template literal, split at its three `${projectId}`
and one `${apiEndpoint}` interpolation points. -/

def embedChunk0 : String :=
  "(function()\x7b\n"
  ++ "  var O=window.__OPTIMELEON__=window.__OPTIMELEON__||\x7b\x7d;\n"
  ++ "  if(O[\""

def embedChunk1 : String :=
  "\"])return;\n"
  ++ "  O[\""

def embedChunk2 : String :=
  "\"]=true;\n"
  ++ "  \n"
  ++ "  var config=\x7b\n"
  ++ "    projectId:\""

def embedChunk3 : String :=
  "\",\n"
  ++ "    api:\""

def embedChunk4 : String :=
  "\"\n"
  ++ "  \x7d;\n"
  ++ "  \n"
  ++ "  function getVisitorId()\x7b\n"
  ++ "    var k=\"optim_vid\";\n"
  ++ "    try\x7b\n"
  ++ "      var id=localStorage.getItem(k);\n"
  ++ "      if(!id)\x7b\n"
  ++ "        id=\"v_\"+Date.now().toString(36)+Math.random().toString(36).substr(2,9);\n"
  ++ "        localStorage.setItem(k,id);\n"
  ++ "      \x7d\n"
  ++ "      return id;\n"
  ++ "    \x7dcatch(e)\x7b\n"
  ++ "      return \"v_\"+Date.now().toString(36)+Math.random().toString(36).substr(2,9);\n"
  ++ "    \x7d\n"
  ++ "  \x7d\n"
  ++ "  \n"
  ++ "  function hash(s)\x7b\n"
  ++ "    var h=5381;\n"
  ++ "    for(var i=0;i<s.length;i++)\x7b\n"
  ++ "      h=(h*33)^s.charCodeAt(i);\n"
  ++ "    \x7d\n"
  ++ "    return h>>>0;\n"
  ++ "  \x7d\n"
  ++ "  \n"
  ++ "  function getVariation(vid,pid)\x7b\n"
  ++ "    var vars=[\"A\",\"B\",\"C\",\"D\"];\n"
  ++ "    return vars[hash(vid+\":\"+pid)%4];\n"
  ++ "  \x7d\n"
  ++ "  \n"
  ++ "  function applyVariation(v)\x7b\n"
  ++ "    // Add data attribute to document for CSS targeting\n"
  ++ "    document.documentElement.setAttribute(\"data-optim-variation\",v);\n"
  ++ "    \n"
  ++ "    // Show/hide elements based on data-optim-show attribute\n"
  ++ "    var els=document.querySelectorAll(\"[data-optim-show]\");\n"
  ++ "    for(var i=0;i<els.length;i++)\x7b\n"
  ++ "      var el=els[i];\n"
  ++ "      var showFor=el.getAttribute(\"data-optim-show\");\n"
  ++ "      if(showFor&&showFor.indexOf(v)===-1)\x7b\n"
  ++ "        el.style.display=\"none\";\n"
  ++ "      \x7d\n"
  ++ "    \x7d\n"
  ++ "    \n"
  ++ "    // Update URL parameter (optional, for analytics tools)\n"
  ++ "    if(window.location.search.indexOf(\"variation=\")===-1)\x7b\n"
  ++ "      var sep=window.location.search?\"&\":\"?\";\n"
  ++ "      var newUrl=window.location.href+sep+\"variation=\"+v;\n"
  ++ "      try\x7b\n"
  ++ "        window.history.replaceState(\x7b\x7d,\"\",newUrl);\n"
  ++ "      \x7dcatch(e)\x7b\x7d\n"
  ++ "    \x7d\n"
  ++ "  \x7d\n"
  ++ "  \n"
  ++ "  function track(vid,v)\x7b\n"
  ++ "    try\x7b\n"
  ++ "      var img=new Image();\n"
  ++ "      img.src=config.api+\"/api/track?v=\"+encodeURIComponent(vid)+\"&p=\"+encodeURIComponent(config.projectId)+\"&var=\"+v+\"&t=\"+Date.now();\n"
  ++ "    \x7dcatch(e)\x7b\x7d\n"
  ++ "  \x7d\n"
  ++ "  \n"
  ++ "  function init()\x7b\n"
  ++ "    try\x7b\n"
  ++ "      var vid=getVisitorId();\n"
  ++ "      var variation=getVariation(vid,config.projectId);\n"
  ++ "      \n"
  ++ "      O.visitorId=vid;\n"
  ++ "      O.variation=variation;\n"
  ++ "      O.projectId=config.projectId;\n"
  ++ "      \n"
  ++ "      applyVariation(variation);\n"
  ++ "      track(vid,variation);\n"
  ++ "      \n"
  ++ "      // Dispatch custom event for integrations\n"
  ++ "      if(typeof CustomEvent!==\"undefined\")\x7b\n"
  ++ "        document.dispatchEvent(new CustomEvent(\"optimeleon:ready\",\x7b\n"
  ++ "          detail:\x7bvisitorId:vid,variation:variation,projectId:config.projectId\x7d\n"
  ++ "        \x7d));\n"
  ++ "      \x7d\n"
  ++ "    \x7dcatch(e)\x7b\n"
  ++ "      console.warn(\"[Optimeleon] Error:\",e.message);\n"
  ++ "    \x7d\n"
  ++ "  \x7d\n"
  ++ "  \n"
  ++ "  if(document.readyState===\"loading\")\x7b\n"
  ++ "    document.addEventListener(\"DOMContentLoaded\",init);\n"
  ++ "  \x7delse\x7b\n"
  ++ "    init();\n"
  ++ "  \x7d\n"
  ++ "\x7d)();"


/-- Function `generateEmbedScript` from `src/lib/script-generator.ts`: the template
literal with `projectId` interpolated three times and `apiEndpoint` once.
The function applies no validation and no escaping to either argument. -/
def generateEmbedScript (projectId apiEndpoint : String) : String :=
  embedChunk0 ++ projectId ++ embedChunk1 ++ projectId ++ embedChunk2
    ++ projectId ++ embedChunk3 ++ apiEndpoint ++ embedChunk4

/-- Safe identifier characters, modelled from the spec's allow-list:
"alphanumeric plus a small set of separators". -/
def isSafeIdChar (c : Char) : Bool :=
  c.isAlphanum || c == '_' || c == '-'

/-- C3: contrary to the spec (and to the repository's own DESIGN.md,
which states "Project IDs are validated (alphanumeric + underscore
only)"), an identifier full of characters outside the safe allow-list is
embedded verbatim into `generateEmbedScript`'s output — the generator
neither rejects nor escapes it. -/
theorem generateEmbedScript_injection :
    (∃ pre post,
        generateEmbedScript "x\";alert(1);//" "https://api.example.com" =
          pre ++ "x\";alert(1);//" ++ post)
    ∧ ("x\";alert(1);//".data.any (fun c => !(isSafeIdChar c))) = true := by
  constructor
  · refine ⟨embedChunk0,
      embedChunk1 ++ "x\";alert(1);//" ++ embedChunk2 ++ "x\";alert(1);//"
        ++ embedChunk3 ++ "https://api.example.com" ++ embedChunk4, ?_⟩
    simp [generateEmbedScript, String.append_assoc]
  · decide

/-- General form of the defect behind C3: `generateEmbedScript` performs
no rejection and no escaping — every project identifier appears verbatim
in the generated script text. -/
theorem generateEmbedScript_verbatim (projectId apiEndpoint : String) :
    ∃ pre post,
      generateEmbedScript projectId apiEndpoint = pre ++ projectId ++ post := by
  refine ⟨embedChunk0,
    embedChunk1 ++ projectId ++ embedChunk2 ++ projectId
      ++ embedChunk3 ++ apiEndpoint ++ embedChunk4, ?_⟩
  simp [generateEmbedScript, String.append_assoc]

/-! ## The SQLite store (`lib/db.ts` schema) modelled as lists of rows -/

/-- A row of the `projects` table. -/
structure ProjectRow where
  id : String
  name : String
  domain : String
  description : Option String
  is_active : Int
  created_at : String
  updated_at : String
deriving DecidableEq, Repr

/-- A row of the `visitor_events` table. -/
structure EventRow where
  id : String
  project_id : String
  visitor_id : String
  variation : String
  timestamp : String
  user_agent : Option String
  referrer : Option String
deriving DecidableEq, Repr

/-- The whole store. -/
structure DB where
  projects : List ProjectRow
  events : List EventRow
deriving DecidableEq, Repr

/-- Denotation of `SELECT ... FROM projects WHERE id = ?` (`id` is the
primary key: the first — only — matching row, or no row). -/
def findProject (db : DB) (id : String) : Option ProjectRow :=
  db.projects.find? (fun p => p.id == id)

/-! ## `src/app/api/s/[id]/route.ts` — the Script Server -/

/-- An HTTP response with a text body. -/
structure HttpTextResponse where
  status : Nat
  body : String
  headers : List (String × String)
deriving DecidableEq, Repr

/-- Placeholder body returned when the id resolves to no project. -/
def notFoundScript : String := "/* Optimeleon: Project not found */"

/-- Placeholder body returned for an existing but inactive project. -/
def inactiveScript : String := "/* Optimeleon: Project is inactive */"

/-- Placeholder body returned from the route's `catch` block. -/
def internalErrorScript : String := "/* Optimeleon: Internal error */"

/-- Handler `GET /api/s/[id]`: look the project up; placeholder with status 200
when missing or inactive, otherwise the full embed script with status 200.
`apiEndpoint` models `process.env.NEXT_PUBLIC_APP_URL || "http://localhost:3000"`. -/
def scriptServeGET (id apiEndpoint : String) (db : DB) : HttpTextResponse :=
  match findProject db id with
  | none =>
      { status := 200, body := notFoundScript,
        headers := [("Content-Type", "application/javascript"),
                    ("Cache-Control", "no-cache, no-store, must-revalidate")] }
  | some project =>
      if project.is_active != 1 then
        { status := 200, body := inactiveScript,
          headers := [("Content-Type", "application/javascript"),
                      ("Cache-Control", "no-cache, no-store, must-revalidate")] }
      else
        { status := 200, body := generateEmbedScript project.id apiEndpoint,
          headers := [("Content-Type", "application/javascript"),
                      ("Cache-Control", "public, max-age=300"),
                      ("Access-Control-Allow-Origin", "*")] }

/-- The response built in the route's `catch` block: any internal failure
degrades to a placeholder with status 200. -/
def scriptServeError : HttpTextResponse :=
  { status := 200, body := internalErrorScript,
    headers := [("Content-Type", "application/javascript"),
                ("Cache-Control", "no-cache")] }

/-- C4: every script-serve path answers with status 200 — not-found and
inactive projects get distinct placeholder bodies, an active project gets
the full generated script, and the internal-failure path degrades to a
placeholder with status 200; the endpoint never returns a failure
status. -/
theorem scriptServeGET_always_200 (id apiEndpoint : String) (db : DB) :
    (scriptServeGET id apiEndpoint db).status = 200
    ∧ (findProject db id = none →
        (scriptServeGET id apiEndpoint db).body = notFoundScript)
    ∧ (∀ p, findProject db id = some p → p.is_active ≠ 1 →
        (scriptServeGET id apiEndpoint db).body = inactiveScript)
    ∧ (∀ p, findProject db id = some p → p.is_active = 1 →
        (scriptServeGET id apiEndpoint db).body = generateEmbedScript p.id apiEndpoint)
    ∧ notFoundScript ≠ inactiveScript
    ∧ scriptServeError.status = 200 := by
  refine ⟨?_, ?_, ?_, ?_, by decide, rfl⟩
  · unfold scriptServeGET
    cases h : findProject db id with
    | none => rfl
    | some p => by_cases hp : p.is_active = 1 <;> simp [hp]
  · intro h; unfold scriptServeGET; rw [h]
  · intro p hp hact; unfold scriptServeGET; rw [hp]
    simp [bne_iff_ne, hact]
  · intro p hp hact; unfold scriptServeGET; rw [hp]
    simp [hact]

theorem scriptServeGET_always_200_witness :
    ((scriptServeGET "proj_x" "http://localhost:3000"
        { projects := [], events := [] }).status = 200
      ∧ (scriptServeGET "proj_x" "http://localhost:3000"
          { projects := [], events := [] }).body = notFoundScript)
    ∧ ((scriptServeGET "proj_1" "http://localhost:3000"
        { projects := [⟨"proj_1", "Demo", "demo.example", none, 0, "t0", "t0"⟩],
          events := [] }).body = inactiveScript)
    ∧ ((scriptServeGET "proj_1" "http://localhost:3000"
        { projects := [⟨"proj_1", "Demo", "demo.example", none, 1, "t0", "t0"⟩],
          events := [] }).body
        = generateEmbedScript "proj_1" "http://localhost:3000") := by
  refine ⟨⟨?_, ?_⟩, ?_, ?_⟩
  · exact (scriptServeGET_always_200 "proj_x" "http://localhost:3000" _).1
  · exact (scriptServeGET_always_200 "proj_x" "http://localhost:3000" _).2.1 rfl
  · exact (scriptServeGET_always_200 "proj_1" "http://localhost:3000" _).2.2.1
      ⟨"proj_1", "Demo", "demo.example", none, 0, "t0", "t0"⟩ rfl (by decide)
  · exact (scriptServeGET_always_200 "proj_1" "http://localhost:3000" _).2.2.2.1
      ⟨"proj_1", "Demo", "demo.example", none, 1, "t0", "t0"⟩ rfl rfl

/-! ## `src/app/api/track/route.ts` — the Tracking Collector -/

/-- An HTTP response with a binary body. -/
structure TrackResponse where
  status : Nat
  body : List Nat
  headers : List (String × String)
deriving DecidableEq, Repr

/-- The 1x1 transparent GIF pixel: the bytes of
`Buffer.from("R0lGODlhAQABAIAAAAAAAP///yH5BAEAAAAALAAAAAABAAEAAAIBRAA7", "base64")`. -/
def PIXEL : List Nat :=
  [71, 73, 70, 56, 57, 97, 1, 0, 1, 0, 128, 0, 0, 0, 0, 0,
   255, 255, 255, 33, 249, 4, 1, 0, 0, 0, 0, 44, 0, 0, 0, 0,
   1, 0, 1, 0, 0, 2, 1, 68, 0, 59]

/-- Pixel response on the validation and not-found paths. -/
def pixelNoStore : TrackResponse :=
  { status := 200, body := PIXEL,
    headers := [("Content-Type", "image/gif"),
                ("Cache-Control", "no-cache, no-store, must-revalidate")] }

/-- Pixel response on the success path (adds the CORS header). -/
def pixelSuccess : TrackResponse :=
  { status := 200, body := PIXEL,
    headers := [("Content-Type", "image/gif"),
                ("Cache-Control", "no-cache, no-store, must-revalidate"),
                ("Access-Control-Allow-Origin", "*")] }

/-- The response built in the route's `catch` block. -/
def trackErrorResponse : TrackResponse :=
  { status := 200, body := PIXEL,
    headers := [("Content-Type", "image/gif"),
                ("Cache-Control", "no-cache")] }

/-- JavaScript `x || null` on a `string | null` value: the empty string is
falsy, so it collapses to `null`. -/
def jsOrNull (o : Option String) : Option String :=
  match o with
  | none => none
  | some s => if s == "" then none else some s

/-- Handler `GET /api/track`.  `v`, `p`, `vr` are `searchParams.get("v"/"p"/"var")`
(absent parameter = `none`); `ua` and `referer` are the raw
`user-agent` / `referer` headers; `eid` and `ts` model the generated
`evt_${nanoid(12)}` id and `new Date().toISOString()`.  The guard
`if (!visitorId || !projectId || !variation)` (JS truthiness: null or
empty string) is split into the `match` and the emptiness test. -/
def trackGET (v p vr ua referer : Option String) (db : DB) (eid ts : String) :
    TrackResponse × DB :=
  match v, p, vr with
  | some vs, some ps, some vrs =>
    if vs == "" || ps == "" || vrs == "" then (pixelNoStore, db)
    else if !(isValidVariation vrs) then (pixelNoStore, db)
    else
      match findProject db ps with
      | none => (pixelNoStore, db)
      | some _ =>
        (pixelSuccess,
          { db with events := db.events ++
              [⟨eid, ps, vs, vrs, ts, jsOrNull ua, jsOrNull referer⟩] })
  | _, _, _ => (pixelNoStore, db)

/-- Whether a `string | null` query parameter is supplied with a usable
(truthy) value. -/
def paramSupplied (o : Option String) : Bool :=
  match o with
  | none => false
  | some s => !(s == "")

/-- C5: one `VisitorEvent` row is appended exactly when `v`, `p` and
`var` are all supplied, `var` is one of {A,B,C,D}, and the project
exists; the row carries the supplied values, the server timestamp, and
the transport headers (`null` when absent or empty); otherwise the store
is untouched.  The projects table is never modified. -/
theorem trackGET_row_iff (v p vr ua referer : Option String) (db : DB)
    (eid ts : String) :
    ((trackGET v p vr ua referer db eid ts).2.events =
      if paramSupplied v && paramSupplied p && paramSupplied vr
          && isValidVariation (vr.getD "") && (findProject db (p.getD "")).isSome
      then db.events ++
        [⟨eid, p.getD "", v.getD "", vr.getD "", ts, jsOrNull ua, jsOrNull referer⟩]
      else db.events)
    ∧ (trackGET v p vr ua referer db eid ts).2.projects = db.projects := by
  rcases v with _ | vs
  · rcases p with _ | ps <;> rcases vr with _ | vrs <;> simp [trackGET, paramSupplied]
  rcases p with _ | ps
  · rcases vr with _ | vrs <;> simp [trackGET, paramSupplied]
  rcases vr with _ | vrs
  · simp [trackGET, paramSupplied]
  by_cases hv : vs = ""
  · subst hv; simp [trackGET, paramSupplied]
  by_cases hp : ps = ""
  · subst hp; simp [trackGET, paramSupplied, hv]
  by_cases hr : vrs = ""
  · subst hr; simp [trackGET, paramSupplied, hv, hp]
  by_cases hva : isValidVariation vrs
  · cases hf : findProject db ps <;>
      simp [trackGET, paramSupplied, hv, hp, hr, hva, hf]
  · simp [trackGET, paramSupplied, hv, hp, hr, hva]

/-- Whether a response sets a do-not-cache `Cache-Control` directive. -/
def setsNoCache (r : TrackResponse) : Bool :=
  r.headers.any (fun kv =>
    kv.1 == "Cache-Control" && List.isPrefixOf "no-cache".data kv.2.data)

/-- C6: on every path — success, missing parameters, invalid variation,
unknown project, internal failure — the tracking response is status 200
with the fixed 1x1 GIF body and a do-not-cache directive. -/
theorem trackGET_resp_fixed (v p vr ua referer : Option String) (db : DB)
    (eid ts : String) :
    ((trackGET v p vr ua referer db eid ts).1.status = 200
      ∧ (trackGET v p vr ua referer db eid ts).1.body = PIXEL
      ∧ setsNoCache (trackGET v p vr ua referer db eid ts).1 = true)
    ∧ (trackErrorResponse.status = 200 ∧ trackErrorResponse.body = PIXEL
      ∧ setsNoCache trackErrorResponse = true) := by
  have hcases : (trackGET v p vr ua referer db eid ts).1 = pixelNoStore
      ∨ (trackGET v p vr ua referer db eid ts).1 = pixelSuccess := by
    rcases v with _ | vs <;> rcases p with _ | ps <;> rcases vr with _ | vrs
    all_goals try exact Or.inl rfl
    simp only [trackGET]
    split
    · exact Or.inl rfl
    split
    · exact Or.inl rfl
    split
    · exact Or.inl rfl
    · exact Or.inr rfl
  refine ⟨?_, rfl, rfl, by decide⟩
  rcases hcases with h | h <;> rw [h] <;> exact ⟨rfl, rfl, by decide⟩

/-- C10: a `v`, `p` or `var` parameter supplied as the empty string
behaves exactly like a missing parameter: same response and store as the
`none` call, no row created, pixel with status 200. -/
theorem trackGET_empty_param (v p vr ua referer : Option String) (db : DB)
    (eid ts : String) :
    trackGET (some "") p vr ua referer db eid ts
        = trackGET none p vr ua referer db eid ts
    ∧ trackGET v (some "") vr ua referer db eid ts
        = trackGET v none vr ua referer db eid ts
    ∧ trackGET v p (some "") ua referer db eid ts
        = trackGET v p none ua referer db eid ts
    ∧ (trackGET (some "") p vr ua referer db eid ts).2 = db
    ∧ (trackGET v (some "") vr ua referer db eid ts).2 = db
    ∧ (trackGET v p (some "") ua referer db eid ts).2 = db
    ∧ (trackGET (some "") p vr ua referer db eid ts).1 = pixelNoStore
    ∧ (trackGET v (some "") vr ua referer db eid ts).1 = pixelNoStore
    ∧ (trackGET v p (some "") ua referer db eid ts).1 = pixelNoStore := by
  have hnone1 : ∀ (p vr : Option String),
      trackGET none p vr ua referer db eid ts = (pixelNoStore, db) := by
    intro p vr; rcases p with _ | ps <;> rcases vr with _ | vrs <;> rfl
  have hnone2 : ∀ (v vr : Option String),
      trackGET v none vr ua referer db eid ts = (pixelNoStore, db) := by
    intro v vr; rcases v with _ | vs <;> rcases vr with _ | vrs <;> rfl
  have hnone3 : ∀ (v p : Option String),
      trackGET v p none ua referer db eid ts = (pixelNoStore, db) := by
    intro v p; rcases v with _ | vs <;> rcases p with _ | ps <;> rfl
  have hemp1 : ∀ (p vr : Option String),
      trackGET (some "") p vr ua referer db eid ts = (pixelNoStore, db) := by
    intro p vr; rcases p with _ | ps <;> rcases vr with _ | vrs <;> rfl
  have hemp2 : ∀ (v vr : Option String),
      trackGET v (some "") vr ua referer db eid ts = (pixelNoStore, db) := by
    intro v vr; rcases v with _ | vs <;> rcases vr with _ | vrs <;>
      first | rfl | simp [trackGET]
  have hemp3 : ∀ (v p : Option String),
      trackGET v p (some "") ua referer db eid ts = (pixelNoStore, db) := by
    intro v p; rcases v with _ | vs <;> rcases p with _ | ps <;>
      first | rfl | simp [trackGET]
  refine ⟨by rw [hemp1, hnone1], by rw [hemp2, hnone2], by rw [hemp3, hnone3],
    by rw [hemp1], by rw [hemp2], by rw [hemp3],
    by rw [hemp1], by rw [hemp2], by rw [hemp3]⟩

/-! ## `src/app/api/projects/[id]/route.ts` — Stats Aggregator and DELETE -/

/-- The `variationCounts` record plus `totalVisitors` accumulator built by
the stats section of `GET /api/projects/[id]`. -/
structure StatsRecord where
  A : Nat
  B : Nat
  C : Nat
  D : Nat
  totalVisitors : Nat
deriving DecidableEq, Repr

/-- The project's event rows: `... FROM visitor_events WHERE project_id = ?`. -/
def projectEvents (db : DB) (pid : String) : List EventRow :=
  db.events.filter (fun e => e.project_id == pid)

/-- Denotation of `SELECT variation, COUNT(*) ... GROUP BY variation`:
one row per distinct variation label, carrying that label's count. -/
def groupRows (db : DB) (pid : String) : List (String × Nat) :=
  ((projectEvents db pid).map (fun e => e.variation)).dedup.map
    (fun v => (v, (projectEvents db pid).countP (fun e => e.variation == v)))

/-- The loop body `stats.forEach((s) => { if (s.variation in
variationCounts) { variationCounts[s.variation] = s.count;
totalVisitors += s.count; } })`. -/
def statsStep (s : StatsRecord) (row : String × Nat) : StatsRecord :=
  if row.1 == "A" then { s with A := row.2, totalVisitors := s.totalVisitors + row.2 }
  else if row.1 == "B" then { s with B := row.2, totalVisitors := s.totalVisitors + row.2 }
  else if row.1 == "C" then { s with C := row.2, totalVisitors := s.totalVisitors + row.2 }
  else if row.1 == "D" then { s with D := row.2, totalVisitors := s.totalVisitors + row.2 }
  else s

/-- The Stats Aggregator: fold the grouped rows into the zero-initialised
record. -/
def projectStats (db : DB) (pid : String) : StatsRecord :=
  (groupRows db pid).foldl statsStep ⟨0, 0, 0, 0, 0⟩

/-- Handler `GET /api/projects/[id]`: `none` models the 404 "Project not found"
response; otherwise the project row is returned with its stats. -/
def projectGET (db : DB) (id : String) : Option (ProjectRow × StatsRecord) :=
  match findProject db id with
  | none => none
  | some project => some (project, projectStats db id)

/-- Handler `DELETE /api/projects/[id]`: `none` models the 404 response (store
untouched); otherwise the project's event rows are deleted first, then
the project row, and the updated store is returned. -/
def deleteProject (db : DB) (id : String) : Option DB :=
  match findProject db id with
  | none => none
  | some _ =>
      some { projects := db.projects.filter (fun p => !(p.id == id)),
             events := db.events.filter (fun e => !(e.project_id == id)) }

/-- Number of the project's events carrying variation label `v`. -/
def labelCount (db : DB) (pid : String) (v : String) : Nat :=
  (projectEvents db pid).countP (fun e => e.variation == v)

theorem foldl_statsStep (cnt : String → Nat) :
    ∀ (ws : List String) (s : StatsRecord), ws.Nodup →
      (ws.map (fun v => (v, cnt v))).foldl statsStep s =
        ⟨(if "A" ∈ ws then cnt "A" else s.A),
         (if "B" ∈ ws then cnt "B" else s.B),
         (if "C" ∈ ws then cnt "C" else s.C),
         (if "D" ∈ ws then cnt "D" else s.D),
         s.totalVisitors
           + ((if "A" ∈ ws then cnt "A" else 0) + (if "B" ∈ ws then cnt "B" else 0)
             + (if "C" ∈ ws then cnt "C" else 0) + (if "D" ∈ ws then cnt "D" else 0))⟩ := by
  intro ws
  induction ws with
  | nil => intro s _; simp
  | cons w ws ih =>
    intro s hnd
    have hw : w ∉ ws := (List.nodup_cons.mp hnd).1
    have hnd' : ws.Nodup := (List.nodup_cons.mp hnd).2
    simp only [List.map_cons, List.foldl_cons]
    rw [ih _ hnd']
    by_cases hA : w = "A"
    · subst hA
      have : ¬ ("A" ∈ ws) := hw
      simp [statsStep, List.mem_cons, this]
      omega
    · by_cases hB : w = "B"
      · subst hB
        have : ¬ ("B" ∈ ws) := hw
        simp [statsStep, List.mem_cons, this]
        omega
      · by_cases hC : w = "C"
        · subst hC
          have : ¬ ("C" ∈ ws) := hw
          simp [statsStep, List.mem_cons, this]
          omega
        · by_cases hD : w = "D"
          · subst hD
            have : ¬ ("D" ∈ ws) := hw
            simp [statsStep, List.mem_cons, this]
            omega
          · have hA' : ¬("A" = w) := fun h => hA h.symm
            have hB' : ¬("B" = w) := fun h => hB h.symm
            have hC' : ¬("C" = w) := fun h => hC h.symm
            have hD' : ¬("D" = w) := fun h => hD h.symm
            simp [statsStep, hA, hB, hC, hD, hA', hB', hC', hD', List.mem_cons]

/-- Example store from the spec's test scenario: one project `proj_1`
with three recorded events carrying variations A, A, B. -/
def exampleDB : DB :=
  { projects := [⟨"proj_1", "Demo", "demo.example", none, 1, "t0", "t0"⟩],
    events :=
      [⟨"evt_1", "proj_1", "v1", "A", "t1", none, none⟩,
       ⟨"evt_2", "proj_1", "v2", "A", "t2", none, none⟩,
       ⟨"evt_3", "proj_1", "v3", "B", "t3", none, none⟩] }

/-- C7: the Stats Aggregator result always carries all four symbols, each
equal to the count of the project's events with that label (zero when
absent), the total equals the sum of the four counts, and on the
three-event example store it returns total=3, A=2, B=1, C=0, D=0. -/
theorem projectStats_counts (db : DB) (pid : String) :
    (projectStats db pid).A = labelCount db pid "A"
    ∧ (projectStats db pid).B = labelCount db pid "B"
    ∧ (projectStats db pid).C = labelCount db pid "C"
    ∧ (projectStats db pid).D = labelCount db pid "D"
    ∧ (projectStats db pid).totalVisitors =
        labelCount db pid "A" + labelCount db pid "B"
          + labelCount db pid "C" + labelCount db pid "D"
    ∧ projectStats exampleDB "proj_1" = ⟨2, 1, 0, 0, 3⟩ := by
  have hnd : ((projectEvents db pid).map (fun e => e.variation)).dedup.Nodup :=
    List.nodup_dedup _
  have hfold := foldl_statsStep
    (fun v => (projectEvents db pid).countP (fun e => e.variation == v))
    (((projectEvents db pid).map (fun e => e.variation)).dedup) ⟨0, 0, 0, 0, 0⟩ hnd
  have key : ∀ lbl : String,
      (if lbl ∈ ((projectEvents db pid).map (fun e => e.variation)).dedup
        then (projectEvents db pid).countP (fun e => e.variation == lbl) else 0)
      = (projectEvents db pid).countP (fun e => e.variation == lbl) := by
    intro lbl
    by_cases h : lbl ∈ ((projectEvents db pid).map (fun e => e.variation)).dedup
    · simp [h]
    · have hz : (projectEvents db pid).countP (fun e => e.variation == lbl) = 0 := by
        rw [List.countP_eq_zero]
        intro e he hbeq
        have hev : e.variation = lbl := by simpa using hbeq
        apply h
        rw [List.mem_dedup]
        exact hev ▸ List.mem_map_of_mem _ he
      simp [h, hz]

  unfold projectStats groupRows labelCount
  rw [hfold]
  simp only [key]
  refine ⟨by trivial, by trivial, by trivial, by trivial, by omega, by decide⟩

/-- C8: deleting an existing project removes every one of its
`VisitorEvent` rows from the store, and a subsequent Stats-Aggregator
call (`GET /api/projects/[id]`) for that identifier reports not-found
rather than a zeroed result. -/
theorem deleteProject_cascade (db : DB) (id : String) (p : ProjectRow)
    (hp : findProject db id = some p) :
    ∃ db', deleteProject db id = some db'
      ∧ db'.events.filter (fun e => e.project_id == id) = []
      ∧ projectGET db' id = none := by
  refine ⟨{ projects := db.projects.filter (fun q => !(q.id == id)),
            events := db.events.filter (fun e => !(e.project_id == id)) }, ?_, ?_, ?_⟩
  · unfold deleteProject; rw [hp]
  · rw [List.filter_eq_nil_iff]
    intro e he
    have := (List.mem_filter.mp he).2
    simpa using this
  · unfold projectGET findProject
    have : (db.projects.filter (fun q => !(q.id == id))).find?
        (fun q => q.id == id) = none := by
      rw [List.find?_eq_none]
      intro q hq
      have := (List.mem_filter.mp hq).2
      simpa using this
    simp only [this]

theorem deleteProject_cascade_witness :
    ∃ db', deleteProject exampleDB "proj_1" = some db'
      ∧ db'.events.filter (fun e => e.project_id == "proj_1") = []
      ∧ projectGET db' "proj_1" = none :=
  deleteProject_cascade exampleDB "proj_1"
    ⟨"proj_1", "Demo", "demo.example", none, 1, "t0", "t0"⟩ rfl

end SmartVariationRouter
